import Mathlib

/-!
Verification of the registry and execution layer of the nova library.

The registry API (`src/core/api.ts`) is embedded shallowly below: a
collection is a record carrying the three optional per-collection
registries (`LINK_STORAGE`, `REDUCER_STORAGE`, `EXPANDER_STORAGE`),
JavaScript objects are ordered association lists keyed by strings, and
the registration functions — which in the source mutate the collection
and `throw` on a name conflict — become state-passing functions
returning the updated collection together with an optional error
message.  Because a thrown error in JavaScript does not undo the
`Object.assign` calls already performed by earlier loop iterations, the
embedding returns the mutated collection even in the error case.
-/

namespace Nova

/-- Configuration objects (link configs, reducer configs, expander
bodies) are modelled as ordered string-keyed association lists, the
shallow image of a plain JavaScript object. -/
abbrev Obj := List (String × String)

/-- Modelled from the spec: the `Linker` class (src/core/query/Linker.ts)
is not among the sources; per §3 a relation descriptor records its
source collection, its relation name and its configuration, so the
constructor call `new Linker(collection, linkName, config)` is modelled
as a record of its three arguments (the collection by its name). -/
structure Linker where
  collectionName : String
  linkName : String
  config : Obj
deriving DecidableEq, Repr

/-- A collection handle, as used by `api.ts`: a name plus the three
side-channel registries, each possibly absent (`undefined`) before the
first registration touches it. -/
structure Collection where
  collectionName : String
  linkStorage : Option (List (String × Linker))
  reducerStorage : Option (List (String × Obj))
  expanderStorage : Option (List (String × Obj))
deriving DecidableEq, Repr

/-- A collection on which nothing has ever been registered: all three
registries are absent. -/
def freshCollection (name : String) : Collection :=
  ⟨name, none, none, none⟩

/-- JavaScript object spread merge for two objects, as in the source
expression `\x7b...LINK_COLLECTION_OPTIONS_DEFAULTS, ...linkConfig\x7d`:
keys of the first object in order, values overridden by the second
object where present, followed by the keys only the second object has. -/
def jsSpread (a b : Obj) : Obj :=
  a.map (fun p => (p.1, (b.lookup p.1).getD p.2))
    ++ b.filter (fun p => (a.lookup p.1).isNone)

/-- Semantics of `Object.assign(storage, \x7b[k]: v\x7d)` on an
association list: override in place when the key exists, append
otherwise. -/
def objSet (st : List (String × α)) (k : String) (v : α) :
    List (String × α) :=
  if (st.lookup k).isSome then
    st.map (fun p => if p.1 == k then (k, v) else p)
  else
    st ++ [(k, v)]

/-- The guard `if (!collection[LINK_STORAGE]) collection[LINK_STORAGE] = \x7b\x7d`
at the top of `addLinks`. -/
def ensureLinkStorage (c : Collection) : Collection :=
  match c.linkStorage with
  | some _ => c
  | none => { c with linkStorage := some [] }

/-- The corresponding guard at the top of `addReducers`. -/
def ensureReducerStorage (c : Collection) : Collection :=
  match c.reducerStorage with
  | some _ => c
  | none => { c with reducerStorage := some [] }

/-- The corresponding guard at the top of `addExpanders`. -/
def ensureExpanderStorage (c : Collection) : Collection :=
  match c.expanderStorage with
  | some _ => c
  | none => { c with expanderStorage := some [] }

/-- Registry lookup of a relation by name, the content test
`collection[LINK_STORAGE] && collection[LINK_STORAGE][name]` expressed
as an `Option`. -/
def lookupLink (c : Collection) (name : String) : Option Linker :=
  match c.linkStorage with
  | some st => st.lookup name
  | none => none

/-- Source `hasLinker`: `Boolean(collection[LINK_STORAGE][name])` when
the storage exists, `false` otherwise (a `Linker` instance is always
truthy). -/
def hasLinker (c : Collection) (name : String) : Bool :=
  match c.linkStorage with
  | some st => (st.lookup name).isSome
  | none => false

/-- Source `getLinker`: returns the stored linker, or throws
`Link "name" is not found in collection: "..."`. -/
def getLinker (c : Collection) (name : String) : Except String Linker :=
  match c.linkStorage with
  | some st =>
    match st.lookup name with
    | some l => Except.ok l
    | none =>
      Except.error ("Link \"" ++ name ++ "\" is not found in collection: \""
        ++ c.collectionName ++ "\"")
  | none =>
    Except.error ("Link \"" ++ name ++ "\" is not found in collection: \""
      ++ c.collectionName ++ "\"")

/-- Source `getReducerConfig`: reads `collection[REDUCER_STORAGE][name]`
when the storage exists; an unknown name or an absent storage simply
yields `undefined` (`none`), never an error. -/
def getReducerConfig (c : Collection) (name : String) : Option Obj :=
  match c.reducerStorage with
  | some st => st.lookup name
  | none => none

/-- Source `getExpanderConfig`: reads
`collection[EXPANDER_STORAGE][name]` when the storage exists; an unknown
name or an absent storage yields `undefined` (`none`), never an error. -/
def getExpanderConfig (c : Collection) (name : String) : Option Obj :=
  match c.expanderStorage with
  | some st => st.lookup name
  | none => none

/-- Source `clear`: resets all three registries to fresh empty objects. -/
def clear (c : Collection) : Collection :=
  { c with
      linkStorage := some []
      reducerStorage := some []
      expanderStorage := some [] }

/-- The `_.forEach(data, (linkConfig, linkName) => ...)` loop of
`addLinks`: for each entry in object order, throw when the name is
already in the link storage (the mutations of earlier iterations
persist), otherwise build `new Linker(collection, linkName,
\x7b...defaults, ...linkConfig\x7d)` and assign it into the storage.  The
defaults object `LINK_COLLECTION_OPTIONS_DEFAULTS` lives in a source
file that is not available, so it is passed as a parameter `d`. -/
def addLinksLoop (d : Obj) (c : Collection) :
    List (String × Obj) → Collection × Option String
  | [] => (c, none)
  | (linkName, linkConfig) :: rest =>
    let st := c.linkStorage.getD []
    if (st.lookup linkName).isSome then
      (c, some ("You cannot add the link with name: " ++ linkName
        ++ " because it was already added"))
    else
      addLinksLoop d
        { c with
            linkStorage := some (objSet st linkName
              ⟨c.collectionName, linkName, jsSpread d linkConfig⟩) }
        rest

/-- Source `addLinks`: ensure the link storage exists, then run the
registration loop. -/
def addLinks (d : Obj) (c : Collection) (data : List (String × Obj)) :
    Collection × Option String :=
  addLinksLoop d (ensureLinkStorage c) data

/-- The `Object.keys(data).forEach` loop of `addReducers`: for each name
in object order, throw when the name is a registered link
(`hasLinker`), throw when it is already in the reducer storage,
otherwise assign the config into the reducer storage. -/
def addReducersLoop (c : Collection) :
    List (String × Obj) → Collection × Option String
  | [] => (c, none)
  | (reducerName, reducerConfig) :: rest =>
    if hasLinker c reducerName then
      (c, some ("You cannot add the reducer with name: " ++ reducerName
        ++ " because it is already defined as a link in "
        ++ c.collectionName ++ " collection"))
    else if ((c.reducerStorage.getD []).lookup reducerName).isSome then
      (c, some ("You cannot add the reducer with name: " ++ reducerName
        ++ " because it was already added to " ++ c.collectionName
        ++ " collection"))
    else
      addReducersLoop
        { c with
            reducerStorage := some (objSet (c.reducerStorage.getD [])
              reducerName reducerConfig) }
        rest

/-- Source `addReducers`: ensure the reducer storage exists, then run
the registration loop. -/
def addReducers (c : Collection) (data : List (String × Obj)) :
    Collection × Option String :=
  addReducersLoop (ensureReducerStorage c) data

/-- The `_.forEach(data, ...)` loop of `addExpanders`: for each name in
object order, throw when the name is already in the expander storage,
otherwise assign the config; links and reducers are never consulted. -/
def addExpandersLoop (c : Collection) :
    List (String × Obj) → Collection × Option String
  | [] => (c, none)
  | (expanderName, expanderConfig) :: rest =>
    if ((c.expanderStorage.getD []).lookup expanderName).isSome then
      (c, some "This expander was already added.")
    else
      addExpandersLoop
        { c with
            expanderStorage := some (objSet (c.expanderStorage.getD [])
              expanderName expanderConfig) }
        rest

/-- Source `addExpanders`: ensure the expander storage exists, then run
the registration loop. -/
def addExpanders (c : Collection) (data : List (String × Obj)) :
    Collection × Option String :=
  addExpandersLoop (ensureExpanderStorage c) data

/-- Modelled from the spec: the compiled request tree of §3/§4.3 (the
Request Tree Compiler and the `RequestNode` type are not among the
sources).  A tree is encoded first-child/next-sibling: a `node` carries
the flags that drive the executor of §4.4 — whether its filter/options
are a function of the parent document (`isDynamic`), whether it
declares `limit`/`skip` (`hasLimitOrSkip`), and whether the relation it
resolves is unique (`uniqueRel`) — plus the number of documents the
store returns for it (`docCount`, the parent-set size its children
see), its first child and its next sibling. -/
inductive RTree where
  | nil : RTree
  | node (isDynamic hasLimitOrSkip uniqueRel : Bool) (docCount : Nat)
      (children : RTree) (next : RTree) : RTree
deriving DecidableEq, Repr

/-- Modelled from the spec: the store-operation count of the Batched
Executor ("Hypernova", §4.4), which is not among the sources.  Given the
size of a node's resolved parent document set: a dynamic node issues
one operation per parent; a node declaring `limit`/`skip` on a
non-unique relation falls back to one operation per distinct parent; a
static batchable node issues exactly one operation; children then run
with the node's own fetched documents as the new parent set. -/
def storeOps : Nat → RTree → Nat
  | _, RTree.nil => 0
  | parents, RTree.node dyn lim uniq docs ch nx =>
    (if dyn then parents else if lim && !uniq then parents else 1)
      + storeOps docs ch + storeOps parents nx

/-- Number of distinct request nodes in a tree. -/
def nodeCount : RTree → Nat
  | RTree.nil => 0
  | RTree.node _ _ _ _ ch nx => 1 + nodeCount ch + nodeCount nx

/-- A tree contains no dynamic node and no `limit`/`skip` on a
non-unique relation: every node is executed in batched mode. -/
def fullyBatched : RTree → Bool
  | RTree.nil => true
  | RTree.node dyn lim uniq _ ch nx =>
    !dyn && !(lim && !uniq) && fullyBatched ch && fullyBatched nx

/-- Result of attaching one relation's matches onto a parent document
under the requested field name. -/
inductive AssembledField (α : Type) where
  | absent : AssembledField α
  | one (d : α) : AssembledField α
  | many (ds : List α) : AssembledField α
deriving DecidableEq, Repr

/-- Modelled from the spec: the Result Assembler (§4.5), which is not
among the sources.  Per parent document, a unique relation assembles
its matches as a single nested document, or an absent field when there
is none — the defensive check of §7 surfaces more than one match for a
unique relation as `AssemblyInvariantViolation`; a non-unique relation
always assembles as the array of matches in store order, possibly
empty.  No match count is a store error. -/
def assembleField (uniqueRel : Bool) (ms : List α) :
    Except String (AssembledField α) :=
  if uniqueRel then
    match ms with
    | [] => Except.ok AssembledField.absent
    | [d] => Except.ok (AssembledField.one d)
    | _ => Except.error
        "AssemblyInvariantViolation: unique relation yielded multiple matches"
  else
    Except.ok (AssembledField.many ms)

/-! Helper lemmas about lookups, the storage guards and the
registration loops. -/

theorem lookup_cons_self {α : Type} (t : List (String × α)) (k : String)
    (v : α) : List.lookup k ((k, v) :: t) = some v := by
  simp [List.lookup]

theorem lookup_cons_ne {α : Type} (t : List (String × α)) (k a : String)
    (v : α) (h : (k == a) = false) :
    List.lookup k ((a, v) :: t) = List.lookup k t := by
  simp [List.lookup, h]

theorem lookup_append_right {α : Type} (st : List (String × α))
    (k : String) (v : α) (h : st.lookup k = none) :
    (st ++ [(k, v)]).lookup k = some v := by
  induction st with
  | nil => exact lookup_cons_self [] k v
  | cons p t ih =>
    obtain ⟨a, b⟩ := p
    cases hk : (k == a) with
    | true =>
      have hs : List.lookup k ((a, b) :: t) = some b := by
        simp [List.lookup, hk]
      rw [h] at hs
      exact Option.noConfusion hs
    | false =>
      rw [lookup_cons_ne t k a b hk] at h
      rw [List.cons_append, lookup_cons_ne (t ++ [(k, v)]) k a b hk]
      exact ih h

theorem objSet_of_not_found {α : Type} (st : List (String × α))
    (k : String) (v : α) (h : (st.lookup k).isSome = false) :
    objSet st k v = st ++ [(k, v)] := by
  simp [objSet, h]

theorem hasLinker_eq_getD (c : Collection) (n : String) :
    hasLinker c n = ((c.linkStorage.getD []).lookup n).isSome := by
  cases h : c.linkStorage <;> simp [hasLinker, h]

theorem getReducerConfig_eq_getD (c : Collection) (n : String) :
    getReducerConfig c n = (c.reducerStorage.getD []).lookup n := by
  cases h : c.reducerStorage <;> simp [getReducerConfig, h]

theorem getExpanderConfig_eq_getD (c : Collection) (n : String) :
    getExpanderConfig c n = (c.expanderStorage.getD []).lookup n := by
  cases h : c.expanderStorage <;> simp [getExpanderConfig, h]

theorem ensureLinkStorage_linkStorage (c : Collection) :
    (ensureLinkStorage c).linkStorage = some (c.linkStorage.getD []) := by
  cases h : c.linkStorage <;> simp [ensureLinkStorage, h]

theorem ensureLinkStorage_collectionName (c : Collection) :
    (ensureLinkStorage c).collectionName = c.collectionName := by
  cases h : c.linkStorage <;> simp [ensureLinkStorage, h]

theorem ensureReducerStorage_reducerStorage (c : Collection) :
    (ensureReducerStorage c).reducerStorage =
      some (c.reducerStorage.getD []) := by
  cases h : c.reducerStorage <;> simp [ensureReducerStorage, h]

theorem ensureExpanderStorage_expanderStorage (c : Collection) :
    (ensureExpanderStorage c).expanderStorage =
      some (c.expanderStorage.getD []) := by
  cases h : c.expanderStorage <;> simp [ensureExpanderStorage, h]

theorem hasLinker_ensureReducerStorage (c : Collection) (n : String) :
    hasLinker (ensureReducerStorage c) n = hasLinker c n := by
  cases h : c.reducerStorage <;> simp [ensureReducerStorage, h, hasLinker]

theorem addLinksLoop_cons_found (d : Obj) (c : Collection) (k : String)
    (v : Obj) (rest : List (String × Obj))
    (h : ((c.linkStorage.getD []).lookup k).isSome = true) :
    (addLinksLoop d c ((k, v) :: rest)).1 = c ∧
      (addLinksLoop d c ((k, v) :: rest)).2.isSome = true := by
  simp [addLinksLoop, h]

theorem addLinksLoop_cons_not_found (d : Obj) (c : Collection)
    (k : String) (v : Obj) (rest : List (String × Obj))
    (h : ((c.linkStorage.getD []).lookup k).isSome = false) :
    addLinksLoop d c ((k, v) :: rest) =
      addLinksLoop d
        { c with
            linkStorage := some (objSet (c.linkStorage.getD []) k
              ⟨c.collectionName, k, jsSpread d v⟩) }
        rest := by
  simp [addLinksLoop, h]

theorem addLinksLoop_fail (d : Obj) (data : List (String × Obj)) :
    ∀ c : Collection, (addLinksLoop d c data).2.isSome = true →
      ∃ pre n cfg post,
        data = pre ++ (n, cfg) :: post ∧
        (addLinksLoop d c pre).2 = none ∧
        (addLinksLoop d c data).1 = (addLinksLoop d c pre).1 ∧
        hasLinker (addLinksLoop d c pre).1 n = true := by
  induction data with
  | nil => intro c h; simp [addLinksLoop] at h
  | cons p rest ih =>
    obtain ⟨k, v⟩ := p
    intro c h
    cases hc : ((c.linkStorage.getD []).lookup k).isSome with
    | true =>
      refine ⟨[], k, v, rest, rfl, rfl, ?_, ?_⟩
      · exact (addLinksLoop_cons_found d c k v rest hc).1
      · show hasLinker c k = true
        rw [hasLinker_eq_getD]
        exact hc
    | false =>
      rw [addLinksLoop_cons_not_found d c k v rest hc] at h ⊢
      obtain ⟨pre, n, cfg, post, hsplit, hnone, heq, hconf⟩ := ih _ h
      refine ⟨(k, v) :: pre, n, cfg, post, by rw [hsplit, List.cons_append], ?_, ?_, ?_⟩
      · rw [addLinksLoop_cons_not_found d c k v pre hc]; exact hnone
      · rw [addLinksLoop_cons_not_found d c k v pre hc]; exact heq
      · rw [addLinksLoop_cons_not_found d c k v pre hc]; exact hconf

theorem addReducersLoop_cons_link (c : Collection) (k : String) (v : Obj)
    (rest : List (String × Obj)) (h : hasLinker c k = true) :
    (addReducersLoop c ((k, v) :: rest)).1 = c ∧
      (addReducersLoop c ((k, v) :: rest)).2.isSome = true := by
  simp [addReducersLoop, h]

theorem addReducersLoop_cons_dup (c : Collection) (k : String) (v : Obj)
    (rest : List (String × Obj)) (h1 : hasLinker c k = false)
    (h2 : ((c.reducerStorage.getD []).lookup k).isSome = true) :
    (addReducersLoop c ((k, v) :: rest)).1 = c ∧
      (addReducersLoop c ((k, v) :: rest)).2.isSome = true := by
  simp [addReducersLoop, h1, h2]

theorem addReducersLoop_cons_fresh (c : Collection) (k : String)
    (v : Obj) (rest : List (String × Obj)) (h1 : hasLinker c k = false)
    (h2 : ((c.reducerStorage.getD []).lookup k).isSome = false) :
    addReducersLoop c ((k, v) :: rest) =
      addReducersLoop
        { c with
            reducerStorage := some (objSet (c.reducerStorage.getD []) k v) }
        rest := by
  simp [addReducersLoop, h1, h2]

theorem addReducersLoop_fail (data : List (String × Obj)) :
    ∀ c : Collection, (addReducersLoop c data).2.isSome = true →
      ∃ pre n cfg post,
        data = pre ++ (n, cfg) :: post ∧
        (addReducersLoop c pre).2 = none ∧
        (addReducersLoop c data).1 = (addReducersLoop c pre).1 ∧
        (hasLinker (addReducersLoop c pre).1 n = true ∨
          getReducerConfig (addReducersLoop c pre).1 n ≠ none) := by
  induction data with
  | nil => intro c h; simp [addReducersLoop] at h
  | cons p rest ih =>
    obtain ⟨k, v⟩ := p
    intro c h
    cases hl : hasLinker c k with
    | true =>
      refine ⟨[], k, v, rest, rfl, rfl, ?_, ?_⟩
      · exact (addReducersLoop_cons_link c k v rest hl).1
      · exact Or.inl hl
    | false =>
      cases hr : ((c.reducerStorage.getD []).lookup k).isSome with
      | true =>
        refine ⟨[], k, v, rest, rfl, rfl, ?_, ?_⟩
        · exact (addReducersLoop_cons_dup c k v rest hl hr).1
        · refine Or.inr ?_
          show getReducerConfig c k ≠ none
          rw [getReducerConfig_eq_getD]
          intro hn
          rw [hn] at hr
          exact Bool.noConfusion hr
      | false =>
        rw [addReducersLoop_cons_fresh c k v rest hl hr] at h ⊢
        obtain ⟨pre, n, cfg, post, hsplit, hnone, heq, hconf⟩ := ih _ h
        refine ⟨(k, v) :: pre, n, cfg, post, by rw [hsplit, List.cons_append], ?_, ?_, ?_⟩
        · rw [addReducersLoop_cons_fresh c k v pre hl hr]; exact hnone
        · rw [addReducersLoop_cons_fresh c k v pre hl hr]; exact heq
        · rw [addReducersLoop_cons_fresh c k v pre hl hr]; exact hconf

theorem addExpandersLoop_cons_found (c : Collection) (k : String)
    (v : Obj) (rest : List (String × Obj))
    (h : ((c.expanderStorage.getD []).lookup k).isSome = true) :
    (addExpandersLoop c ((k, v) :: rest)).1 = c ∧
      (addExpandersLoop c ((k, v) :: rest)).2.isSome = true := by
  simp [addExpandersLoop, h]

theorem addExpandersLoop_cons_not_found (c : Collection) (k : String)
    (v : Obj) (rest : List (String × Obj))
    (h : ((c.expanderStorage.getD []).lookup k).isSome = false) :
    addExpandersLoop c ((k, v) :: rest) =
      addExpandersLoop
        { c with
            expanderStorage := some (objSet (c.expanderStorage.getD []) k v) }
        rest := by
  simp [addExpandersLoop, h]

theorem addExpandersLoop_fail (data : List (String × Obj)) :
    ∀ c : Collection, (addExpandersLoop c data).2.isSome = true →
      ∃ pre n cfg post,
        data = pre ++ (n, cfg) :: post ∧
        (addExpandersLoop c pre).2 = none ∧
        (addExpandersLoop c data).1 = (addExpandersLoop c pre).1 ∧
        getExpanderConfig (addExpandersLoop c pre).1 n ≠ none := by
  induction data with
  | nil => intro c h; simp [addExpandersLoop] at h
  | cons p rest ih =>
    obtain ⟨k, v⟩ := p
    intro c h
    cases hc : ((c.expanderStorage.getD []).lookup k).isSome with
    | true =>
      refine ⟨[], k, v, rest, rfl, rfl, ?_, ?_⟩
      · exact (addExpandersLoop_cons_found c k v rest hc).1
      · show getExpanderConfig c k ≠ none
        rw [getExpanderConfig_eq_getD]
        intro hn
        rw [hn] at hc
        exact Bool.noConfusion hc
    | false =>
      rw [addExpandersLoop_cons_not_found c k v rest hc] at h ⊢
      obtain ⟨pre, n, cfg, post, hsplit, hnone, heq, hconf⟩ := ih _ h
      refine ⟨(k, v) :: pre, n, cfg, post, by rw [hsplit, List.cons_append], ?_, ?_, ?_⟩
      · rw [addExpandersLoop_cons_not_found c k v pre hc]; exact hnone
      · rw [addExpandersLoop_cons_not_found c k v pre hc]; exact heq
      · rw [addExpandersLoop_cons_not_found c k v pre hc]; exact hconf

theorem lookupLink_eq_getD (c : Collection) (n : String) :
    lookupLink c n = (c.linkStorage.getD []).lookup n := by
  cases h : c.linkStorage <;> simp [lookupLink, h]

theorem ensureLinkStorage_of_some (c : Collection)
    (st : List (String × Linker)) (h : c.linkStorage = some st) :
    ensureLinkStorage c = c := by
  simp [ensureLinkStorage, h]

theorem ensureExpanderStorage_of_some (c : Collection)
    (st : List (String × Obj)) (h : c.expanderStorage = some st) :
    ensureExpanderStorage c = c := by
  simp [ensureExpanderStorage, h]

theorem ensureExpanderStorage_collectionName (c : Collection) :
    (ensureExpanderStorage c).collectionName = c.collectionName := by
  cases h : c.expanderStorage <;> simp [ensureExpanderStorage, h]

theorem hasLinker_of_lookup (c : Collection)
    (st : List (String × Linker)) (n : String)
    (h1 : c.linkStorage = some st) (h2 : (st.lookup n).isSome = true) :
    hasLinker c n = true := by
  simp [hasLinker, h1, h2]

theorem getLinker_of_lookup (c : Collection)
    (st : List (String × Linker)) (n : String) (l : Linker)
    (h1 : c.linkStorage = some st) (h2 : st.lookup n = some l) :
    getLinker c n = Except.ok l := by
  simp [getLinker, h1, h2]

theorem ensureLinkStorage_reducerStorage (c : Collection) :
    (ensureLinkStorage c).reducerStorage = c.reducerStorage := by
  cases h : c.linkStorage <;> simp [ensureLinkStorage, h]

theorem ensureLinkStorage_expanderStorage (c : Collection) :
    (ensureLinkStorage c).expanderStorage = c.expanderStorage := by
  cases h : c.linkStorage <;> simp [ensureLinkStorage, h]

theorem addLinks_single_success (d : Obj) (c : Collection) (n : String)
    (cfg : Obj) (hl : lookupLink c n = none) :
    addLinks d c [(n, cfg)] =
      (⟨c.collectionName, some ((c.linkStorage.getD []) ++
          [(n, ⟨c.collectionName, n, jsSpread d cfg⟩)]),
        c.reducerStorage, c.expanderStorage⟩, none) := by
  have hst : ((ensureLinkStorage c).linkStorage.getD []).lookup n
      = none := by
    rw [ensureLinkStorage_linkStorage, Option.getD_some,
      ← lookupLink_eq_getD]
    exact hl
  have hfalse : (((ensureLinkStorage c).linkStorage.getD []).lookup
      n).isSome = false := by
    rw [hst]
    rfl
  show addLinksLoop d (ensureLinkStorage c) [(n, cfg)] = _
  rw [addLinksLoop_cons_not_found d (ensureLinkStorage c) n cfg []
    hfalse, objSet_of_not_found _ n _ hfalse,
    ensureLinkStorage_linkStorage, Option.getD_some,
    ensureLinkStorage_collectionName, ensureLinkStorage_reducerStorage,
    ensureLinkStorage_expanderStorage]
  rfl

/-! The claims. -/

/-- C1 counterexample: with relation `b` already registered, the call
`addLinks(c, \x7ba: cfgA, b: cfgB\x7d)` fails, yet it has added the entry
`a` — the registries are not left exactly as they were before the
call. -/
theorem claim1_counterexample :
    (addLinks [] ⟨"coll", some [("b", ⟨"coll", "b", []⟩)], none, none⟩
        [("a", []), ("b", [])]).2.isSome = true ∧
    hasLinker (addLinks [] ⟨"coll", some [("b", ⟨"coll", "b", []⟩)],
        none, none⟩ [("a", []), ("b", [])]).1 "a" = true ∧
    hasLinker ⟨"coll", some [("b", ⟨"coll", "b", []⟩)], none, none⟩ "a"
      = false ∧
    (addLinks [] ⟨"coll", some [("b", ⟨"coll", "b", []⟩)], none, none⟩
        [("a", []), ("b", [])]).1 ≠
      ⟨"coll", some [("b", ⟨"coll", "b", []⟩)], none, none⟩ := by
  decide

/-- C1 (amended): when a registration call (`addLinks`, `addReducers`
or `addExpanders`) fails because some name is already registered, the
registries are left exactly as a successful call on the prefix of the
argument map strictly before the first conflicting name would leave
them: entries preceding the conflict are added and remain, and no entry
at or after the first conflicting name is added.  In particular a map
whose first entry conflicts — e.g. any single-name map — leaves the
registries unchanged. -/
theorem claim1_failed_call_state :
    (∀ (d : Obj) (c : Collection) (data : List (String × Obj)),
      (addLinks d c data).2.isSome = true →
      ∃ pre n cfg post,
        data = pre ++ (n, cfg) :: post ∧
        (addLinks d c pre).2 = none ∧
        (addLinks d c data).1 = (addLinks d c pre).1 ∧
        hasLinker (addLinks d c pre).1 n = true) ∧
    (∀ (c : Collection) (data : List (String × Obj)),
      (addReducers c data).2.isSome = true →
      ∃ pre n cfg post,
        data = pre ++ (n, cfg) :: post ∧
        (addReducers c pre).2 = none ∧
        (addReducers c data).1 = (addReducers c pre).1 ∧
        (hasLinker (addReducers c pre).1 n = true ∨
          getReducerConfig (addReducers c pre).1 n ≠ none)) ∧
    (∀ (c : Collection) (data : List (String × Obj)),
      (addExpanders c data).2.isSome = true →
      ∃ pre n cfg post,
        data = pre ++ (n, cfg) :: post ∧
        (addExpanders c pre).2 = none ∧
        (addExpanders c data).1 = (addExpanders c pre).1 ∧
        getExpanderConfig (addExpanders c pre).1 n ≠ none) := by
  refine ⟨?_, ?_, ?_⟩
  · intro d c data h
    exact addLinksLoop_fail d data (ensureLinkStorage c) h
  · intro c data h
    exact addReducersLoop_fail data (ensureReducerStorage c) h
  · intro c data h
    exact addExpandersLoop_fail data (ensureExpanderStorage c) h

/-- C1 witness: one failing call per registration function — for each,
the map `\x7ba: ..., b: ...\x7d` with `b` already registered splits at the
conflicting entry, the prefix call succeeds, and the failed call's
state equals the prefix call's state. -/
theorem claim1_witness :
    (∃ pre n cfg post,
      [(("a" : String), ([] : Obj)), ("b", [])] =
        pre ++ (n, cfg) :: post ∧
      (addLinks [] ⟨"coll", some [("b", ⟨"coll", "b", []⟩)], none, none⟩
        pre).2 = none ∧
      (addLinks [] ⟨"coll", some [("b", ⟨"coll", "b", []⟩)], none, none⟩
          [("a", []), ("b", [])]).1 =
        (addLinks [] ⟨"coll", some [("b", ⟨"coll", "b", []⟩)], none,
          none⟩ pre).1 ∧
      hasLinker (addLinks [] ⟨"coll", some [("b", ⟨"coll", "b", []⟩)],
        none, none⟩ pre).1 n = true) ∧
    (∃ pre n cfg post,
      [(("a" : String), ([] : Obj)), ("b", [])] =
        pre ++ (n, cfg) :: post ∧
      (addReducers ⟨"coll", none, some [("b", [])], none⟩ pre).2 =
        none ∧
      (addReducers ⟨"coll", none, some [("b", [])], none⟩
          [("a", []), ("b", [])]).1 =
        (addReducers ⟨"coll", none, some [("b", [])], none⟩ pre).1 ∧
      (hasLinker (addReducers ⟨"coll", none, some [("b", [])], none⟩
          pre).1 n = true ∨
        getReducerConfig (addReducers ⟨"coll", none, some [("b", [])],
          none⟩ pre).1 n ≠ none)) ∧
    (∃ pre n cfg post,
      [(("a" : String), ([] : Obj)), ("b", [])] =
        pre ++ (n, cfg) :: post ∧
      (addExpanders ⟨"coll", none, none, some [("b", [])]⟩ pre).2 =
        none ∧
      (addExpanders ⟨"coll", none, none, some [("b", [])]⟩
          [("a", []), ("b", [])]).1 =
        (addExpanders ⟨"coll", none, none, some [("b", [])]⟩ pre).1 ∧
      getExpanderConfig (addExpanders ⟨"coll", none, none,
        some [("b", [])]⟩ pre).1 n ≠ none) :=
  ⟨claim1_failed_call_state.1 []
      ⟨"coll", some [("b", ⟨"coll", "b", []⟩)], none, none⟩
      [("a", []), ("b", [])] (by decide),
    claim1_failed_call_state.2.1 ⟨"coll", none, some [("b", [])], none⟩
      [("a", []), ("b", [])] (by decide),
    claim1_failed_call_state.2.2 ⟨"coll", none, none, some [("b", [])]⟩
      [("a", []), ("b", [])] (by decide)⟩

/-- C2 counterexample: on a collection where `r` is a registered
reducer (and no relation `r` exists), `addLinks(c, \x7br: cfg\x7d)` does
not fail — it registers the link — refuting the claim that `addLinks`
fails when the name is already a registered reducer. -/
theorem claim2_counterexample :
    getReducerConfig ⟨"coll", none, some [("r", [("x", "1")])], none⟩
      "r" = some [("x", "1")] ∧
    (addLinks [] ⟨"coll", none, some [("r", [("x", "1")])], none⟩
      [("r", [])]).2 = none ∧
    hasLinker (addLinks [] ⟨"coll", none, some [("r", [("x", "1")])],
      none⟩ [("r", [])]).1 "r" = true := by
  decide

/-- C2 (amended): the relation/reducer namespace is enforced only by
`addReducers` — `addReducers(collection, \x7bname: cfg\x7d)` fails when
`name` is already a registered relation, but `addLinks` never consults
the reducer registry: `addLinks(collection, \x7bname: cfg\x7d)` succeeds
whenever no relation `name` exists, even when `name` is a registered
reducer. -/
theorem claim2_one_way_namespace :
    (∀ (c : Collection) (n : String) (cfg : Obj),
      hasLinker c n = true →
      (addReducers c [(n, cfg)]).2.isSome = true) ∧
    (∀ (d : Obj) (c : Collection) (n : String) (cfg : Obj),
      getReducerConfig c n ≠ none → lookupLink c n = none →
      (addLinks d c [(n, cfg)]).2 = none) := by
  constructor
  · intro c n cfg h
    have h2 : hasLinker (ensureReducerStorage c) n = true := by
      rw [hasLinker_ensureReducerStorage]
      exact h
    exact (addReducersLoop_cons_link (ensureReducerStorage c) n cfg []
      h2).2
  · intro d c n cfg _ hl
    rw [addLinks_single_success d c n cfg hl]

/-- C2 witness: `addReducers` rejects the registered relation name `b`;
`addLinks` accepts the registered reducer name `r`. -/
theorem claim2_witness :
    (addReducers ⟨"coll", some [("b", ⟨"coll", "b", []⟩)], none, none⟩
      [("b", [])]).2.isSome = true ∧
    (addLinks [] ⟨"coll", none, some [("r", [("x", "1")])], none⟩
      [("r", [])]).2 = none :=
  ⟨claim2_one_way_namespace.1
      ⟨"coll", some [("b", ⟨"coll", "b", []⟩)], none, none⟩ "b" []
      (by decide),
    claim2_one_way_namespace.2 []
      ⟨"coll", none, some [("r", [("x", "1")])], none⟩ "r" []
      (by decide) (by decide)⟩

/-- C3: for request trees with no dynamic node and no `limit`/`skip` on
a non-unique relation, executing the query issues exactly one store
operation per distinct request node, regardless of how many documents
exist at any level (the per-node document counts in the tree and the
root parent count are arbitrary). -/
theorem claim3_ops_eq_nodes :
    ∀ (t : RTree) (parents : Nat), fullyBatched t = true →
      storeOps parents t = nodeCount t := by
  intro t
  induction t with
  | nil =>
    intro p _
    rfl
  | node dyn lim uniq docs ch nx ihc ihn =>
    intro p h
    rw [fullyBatched] at h
    cases dyn with
    | true => simp at h
    | false =>
      cases hlu : (lim && !uniq) with
      | true =>
        rw [hlu] at h
        simp at h
      | false =>
        rw [hlu] at h
        simp at h
        obtain ⟨hc, hn⟩ := h
        rw [storeOps, nodeCount, hlu]
        simp [ihc docs hc, ihn p hn]

/-- C3 witness: the spec §8 scenario — 100 posts each referencing one
of 4 categories; the two-node tree issues exactly 2 store operations,
independent of the 100 and the 4. -/
theorem claim3_witness :
    storeOps 1 (RTree.node false false false 100
        (RTree.node false false true 4 RTree.nil RTree.nil)
        RTree.nil) =
      nodeCount (RTree.node false false false 100
        (RTree.node false false true 4 RTree.nil RTree.nil)
        RTree.nil) :=
  claim3_ops_eq_nodes _ 1 (by decide)

/-- C4: a child node for a unique relation is assembled as a single
nested document or an absent field, never an array; a child node for a
non-unique relation is always assembled as an array, possibly empty;
the absence of matches never produces an error. -/
theorem claim4_assembly_shape {α : Type} :
    ∀ (uniq : Bool) (ms : List α),
      (uniq = true → ∀ ds : List α,
        assembleField uniq ms ≠ Except.ok (AssembledField.many ds)) ∧
      (uniq = false →
        assembleField uniq ms = Except.ok (AssembledField.many ms)) ∧
      (ms = [] →
        assembleField uniq ms = Except.ok
          (if uniq then AssembledField.absent
            else AssembledField.many [])) := by
  intro uniq ms
  refine ⟨?_, ?_, ?_⟩
  · rintro rfl ds h
    cases ms with
    | nil => simp [assembleField] at h
    | cons a t =>
      cases t with
      | nil => simp [assembleField] at h
      | cons b t2 => simp [assembleField] at h
  · rintro rfl
    simp [assembleField]
  · rintro rfl
    cases uniq <;> simp [assembleField]

/-- C4 witness: a unique relation with one match assembles to a nested
document, never an array; a non-unique relation assembles to the array
of its matches; empty matches assemble to an absent field or an empty
array without error. -/
theorem claim4_witness :
    (assembleField true [3] ≠ Except.ok (AssembledField.many [3])) ∧
    (assembleField false [3, 4] =
      Except.ok (AssembledField.many [3, 4])) ∧
    (assembleField true ([] : List Nat) =
      Except.ok AssembledField.absent) ∧
    (assembleField false ([] : List Nat) =
      Except.ok (AssembledField.many [])) :=
  ⟨(claim4_assembly_shape true [3]).1 rfl [3],
    (claim4_assembly_shape false [3, 4]).2.1 rfl,
    (claim4_assembly_shape true ([] : List Nat)).2.2 rfl,
    (claim4_assembly_shape false ([] : List Nat)).2.2 rfl⟩

/-- C5: `getLinker(collection, name)` fails exactly when no relation
named `name` is registered on the collection, and otherwise returns the
registered `Linker`; in particular it fails on a collection where no
relation at all has been registered. -/
theorem claim5_getLinker_fails_iff_absent :
    ∀ (c : Collection) (n : String),
      ((getLinker c n).isOk = false ↔ lookupLink c n = none) ∧
      (∀ l : Linker, lookupLink c n = some l →
        getLinker c n = Except.ok l) ∧
      (∀ cn m : String, (getLinker (freshCollection cn) m).isOk = false)
    := by
  intro c n
  refine ⟨?_, ?_, ?_⟩
  · cases h : c.linkStorage with
    | none =>
      simp [getLinker, lookupLink, h, Except.isOk, Except.toBool]
    | some st =>
      cases hl : st.lookup n with
      | none =>
        simp [getLinker, lookupLink, h, hl, Except.isOk, Except.toBool]
      | some l =>
        simp [getLinker, lookupLink, h, hl, Except.isOk, Except.toBool]
  · intro l hl
    cases h : c.linkStorage with
    | none => simp [lookupLink, h] at hl
    | some st =>
      simp [lookupLink, h] at hl
      simp [getLinker, h, hl]
  · intro cn m
    rfl

/-- C5 witness: on a one-relation collection, `getLinker` returns the
stored linker for the registered name and fails for an unknown one. -/
theorem claim5_witness :
    (((getLinker ⟨"coll", some [("b", ⟨"coll", "b", []⟩)], none, none⟩
        "x").isOk = false ↔
      lookupLink ⟨"coll", some [("b", ⟨"coll", "b", []⟩)], none, none⟩
        "x" = none)) ∧
    getLinker ⟨"coll", some [("b", ⟨"coll", "b", []⟩)], none, none⟩ "b"
      = Except.ok ⟨"coll", "b", []⟩ :=
  ⟨(claim5_getLinker_fails_iff_absent
      ⟨"coll", some [("b", ⟨"coll", "b", []⟩)], none, none⟩ "x").1,
    (claim5_getLinker_fails_iff_absent
      ⟨"coll", some [("b", ⟨"coll", "b", []⟩)], none, none⟩ "b").2.1
      ⟨"coll", "b", []⟩ (by decide)⟩

/-- C6: `addLinks(collection, \x7bname: cfg\x7d)` fails when a relation is
already registered under `name`, and the collection — in particular the
previously registered descriptor — is left unchanged. -/
theorem claim6_addLinks_conflict_preserves :
    ∀ (d : Obj) (c : Collection) (n : String) (cfg : Obj) (l : Linker),
      lookupLink c n = some l →
      (addLinks d c [(n, cfg)]).2.isSome = true ∧
      (addLinks d c [(n, cfg)]).1 = c := by
  intro d c n cfg l hl
  cases h : c.linkStorage with
  | none => simp [lookupLink, h] at hl
  | some st =>
    simp [lookupLink, h] at hl
    have he : ensureLinkStorage c = c := ensureLinkStorage_of_some c st h
    have hc : ((c.linkStorage.getD []).lookup n).isSome = true := by
      rw [h, Option.getD_some, hl]
      rfl
    have := addLinksLoop_cons_found d c n cfg [] hc
    show (addLinksLoop d (ensureLinkStorage c) [(n, cfg)]).2.isSome = true
      ∧ (addLinksLoop d (ensureLinkStorage c) [(n, cfg)]).1 = c
    rw [he]
    exact ⟨this.2, this.1⟩

/-- C6 witness: re-registering the relation name `b` fails and leaves
the collection exactly as it was. -/
theorem claim6_witness :
    (addLinks [] ⟨"coll", some [("b", ⟨"coll", "b", []⟩)], none, none⟩
        [("b", [("f", "x")])]).2.isSome = true ∧
    (addLinks [] ⟨"coll", some [("b", ⟨"coll", "b", []⟩)], none, none⟩
        [("b", [("f", "x")])]).1 =
      ⟨"coll", some [("b", ⟨"coll", "b", []⟩)], none, none⟩ :=
  claim6_addLinks_conflict_preserves []
    ⟨"coll", some [("b", ⟨"coll", "b", []⟩)], none, none⟩ "b"
    [("f", "x")] ⟨"coll", "b", []⟩ (by decide)

/-- C7: expanders live in a separate namespace — `addExpanders` with a
single-name map fails exactly when the name is already registered as an
expander on the collection (the link and reducer registries are never
consulted: the statement quantifies over every collection, including
those carrying a relation or reducer of the same name), and on success
the expander body is stored. -/
theorem claim7_expander_namespace :
    ∀ (c : Collection) (n : String) (body : Obj),
      (getExpanderConfig c n ≠ none →
        (addExpanders c [(n, body)]).2.isSome = true ∧
        (addExpanders c [(n, body)]).1 = c) ∧
      (getExpanderConfig c n = none →
        (addExpanders c [(n, body)]).2 = none ∧
        getExpanderConfig (addExpanders c [(n, body)]).1 n = some body)
    := by
  intro c n body
  constructor
  · intro hne
    cases h : c.expanderStorage with
    | none =>
      rw [getExpanderConfig, h] at hne
      exact absurd rfl hne
    | some st =>
      have he : ensureExpanderStorage c = c :=
        ensureExpanderStorage_of_some c st h
      have hc : ((c.expanderStorage.getD []).lookup n).isSome = true := by
        rw [h, Option.getD_some]
        rw [getExpanderConfig, h] at hne
        cases hx : st.lookup n with
        | none => exact absurd hx hne
        | some b => rfl
      have := addExpandersLoop_cons_found c n body [] hc
      show (addExpandersLoop (ensureExpanderStorage c)
          [(n, body)]).2.isSome = true ∧
        (addExpandersLoop (ensureExpanderStorage c) [(n, body)]).1 = c
      rw [he]
      exact ⟨this.2, this.1⟩
  · intro hnone
    have hst : ((ensureExpanderStorage c).expanderStorage.getD []).lookup
        n = none := by
      rw [ensureExpanderStorage_expanderStorage, Option.getD_some,
        ← getExpanderConfig_eq_getD]
      exact hnone
    have hfalse : (((ensureExpanderStorage c).expanderStorage.getD
        []).lookup n).isSome = false := by
      rw [hst]
      rfl
    show (addExpandersLoop (ensureExpanderStorage c) [(n, body)]).2 = none
      ∧ getExpanderConfig (addExpandersLoop (ensureExpanderStorage c)
          [(n, body)]).1 n = some body
    rw [addExpandersLoop_cons_not_found (ensureExpanderStorage c) n body
      [] hfalse]
    rw [objSet_of_not_found _ n body hfalse]
    refine ⟨rfl, ?_⟩
    show ((((ensureExpanderStorage c).expanderStorage.getD []) ++
        [(n, body)]).lookup n) = some body
    exact lookup_append_right _ n body hst

/-- C7 witness: on a collection where `b` is both a relation and a
reducer but not an expander, `addExpanders` succeeds and stores the
body; a second registration of the expander `b` fails and changes
nothing. -/
theorem claim7_witness :
    ((addExpanders ⟨"coll", some [("b", ⟨"coll", "b", []⟩)],
        some [("b", [])], none⟩ [("b", [("q", "1")])]).2 = none ∧
      getExpanderConfig (addExpanders ⟨"coll",
        some [("b", ⟨"coll", "b", []⟩)], some [("b", [])], none⟩
        [("b", [("q", "1")])]).1 "b" = some [("q", "1")]) ∧
    ((addExpanders ⟨"coll", some [("b", ⟨"coll", "b", []⟩)],
        some [("b", [])], some [("b", [("q", "1")])]⟩
        [("b", [("q", "2")])]).2.isSome = true ∧
      (addExpanders ⟨"coll", some [("b", ⟨"coll", "b", []⟩)],
        some [("b", [])], some [("b", [("q", "1")])]⟩
        [("b", [("q", "2")])]).1 =
      ⟨"coll", some [("b", ⟨"coll", "b", []⟩)], some [("b", [])],
        some [("b", [("q", "1")])]⟩) :=
  ⟨(claim7_expander_namespace ⟨"coll", some [("b", ⟨"coll", "b", []⟩)],
      some [("b", [])], none⟩ "b" [("q", "1")]).2 (by decide),
    (claim7_expander_namespace ⟨"coll", some [("b", ⟨"coll", "b", []⟩)],
      some [("b", [])], some [("b", [("q", "1")])]⟩ "b"
      [("q", "2")]).1 (by decide)⟩

/-- C8: round-trip of registration and lookup — for a name with no
registered relation, a successful `addLinks(collection, \x7bname: cfg\x7d)`
makes `hasLinker` true and `getLinker` return the `Linker` built from
`cfg` spread over the link-option defaults `d`; before any
registration, `hasLinker` returns false without failing. -/
theorem claim8_register_lookup_roundtrip :
    (∀ (d : Obj) (c : Collection) (n : String) (cfg : Obj),
      lookupLink c n = none →
      (addLinks d c [(n, cfg)]).2 = none ∧
      hasLinker (addLinks d c [(n, cfg)]).1 n = true ∧
      getLinker (addLinks d c [(n, cfg)]).1 n =
        Except.ok ⟨c.collectionName, n, jsSpread d cfg⟩) ∧
    (∀ cn m : String, hasLinker (freshCollection cn) m = false) := by
  constructor
  · intro d c n cfg hl
    have hst0 : (c.linkStorage.getD []).lookup n = none := by
      rw [← lookupLink_eq_getD]
      exact hl
    have key := addLinks_single_success d c n cfg hl
    have hfound : ((c.linkStorage.getD []) ++
        [(n, (⟨c.collectionName, n, jsSpread d cfg⟩ : Linker))]).lookup n
        = some ⟨c.collectionName, n, jsSpread d cfg⟩ :=
      lookup_append_right _ n _ hst0
    refine ⟨?_, ?_, ?_⟩
    · rw [key]
    · rw [key]
      exact hasLinker_of_lookup _ _ n rfl (by rw [hfound]; rfl)
    · rw [key]
      exact getLinker_of_lookup _ _ n _ rfl hfound
  · intro cn m
    rfl

/-- C8 witness: registering the link `n` with config `u := "true"` over
defaults `f := "def", u := "false"` on a fresh collection succeeds, and
`getLinker` then returns the linker with the merged config. -/
theorem claim8_witness :
    (addLinks [("f", "def"), ("u", "false")] (freshCollection "c")
      [("n", [("u", "true")])]).2 = none ∧
    hasLinker (addLinks [("f", "def"), ("u", "false")]
      (freshCollection "c") [("n", [("u", "true")])]).1 "n" = true ∧
    getLinker (addLinks [("f", "def"), ("u", "false")]
        (freshCollection "c") [("n", [("u", "true")])]).1 "n" =
      Except.ok ⟨"c", "n", [("f", "def"), ("u", "true")]⟩ := by
  have h := claim8_register_lookup_roundtrip.1
    [("f", "def"), ("u", "false")] (freshCollection "c") "n"
    [("u", "true")] (by decide)
  exact ⟨h.1, h.2.1, by rw [h.2.2]; exact congrArg Except.ok (by decide)⟩

/-- C9: `clear(collection)` empties all three registries at once: after
it, `hasLinker` is false and `getLinker` fails for every name, and
`getReducerConfig` and `getExpanderConfig` return absent, regardless of
what was registered before. -/
theorem claim9_clear_empties_all :
    ∀ (c : Collection) (n : String),
      hasLinker (clear c) n = false ∧
      (getLinker (clear c) n).isOk = false ∧
      getReducerConfig (clear c) n = none ∧
      getExpanderConfig (clear c) n = none := by
  intro c n
  exact ⟨rfl, rfl, rfl, rfl⟩

/-- C10: unknown reducer and expander names yield an absent config at
the registry interface — `getReducerConfig` and `getExpanderConfig`
return `none` rather than raising, unlike `getLinker`; on an untouched
collection both return absent for every name. -/
theorem claim10_unknown_configs_absent :
    ∀ (c : Collection) (n : String),
      ((c.reducerStorage.getD []).lookup n = none →
        getReducerConfig c n = none) ∧
      ((c.expanderStorage.getD []).lookup n = none →
        getExpanderConfig c n = none) ∧
      (∀ cn m : String, getReducerConfig (freshCollection cn) m = none ∧
        getExpanderConfig (freshCollection cn) m = none) := by
  intro c n
  refine ⟨?_, ?_, ?_⟩
  · intro h
    rw [getReducerConfig_eq_getD]
    exact h
  · intro h
    rw [getExpanderConfig_eq_getD]
    exact h
  · intro cn m
    exact ⟨rfl, rfl⟩

/-- C10 witness: on a collection holding one reducer `r` and no
expander storage, the configs for the unknown name `x` are absent. -/
theorem claim10_witness :
    getReducerConfig ⟨"coll", none, some [("r", [("x", "1")])], none⟩
      "zz" = none ∧
    getExpanderConfig ⟨"coll", none, some [("r", [("x", "1")])], none⟩
      "zz" = none :=
  ⟨(claim10_unknown_configs_absent
      ⟨"coll", none, some [("r", [("x", "1")])], none⟩ "zz").1 (by decide),
    (claim10_unknown_configs_absent
      ⟨"coll", none, some [("r", [("x", "1")])], none⟩ "zz").2.1
      (by decide)⟩

end Nova
